import Mathlib

/-!
Shallow embedding of aquosctl (Sharp Aquos RS-232 control utility,
src/aquosctl.c).  The serial transport is abstracted: an invocation is run
against a list of environment replies (one per transmitted frame, with
`none` standing for no bytes arriving before the one-second alarm), and the
observable behaviour is the list of byte strings written to the transport,
the inspection lines printed, and the process exit status.
-/

namespace Aquosctl

/-- C isspace over the characters that atoi and sscanf skip before a
number: space (32) and the control characters 9 to 13. -/
def isSpaceC (c : Char) : Bool :=
  c.toNat = 32 || (9 ≤ c.toNat && c.toNat ≤ 13)

/-- C isdigit: ASCII codes 48 to 57. -/
def isDigitC (c : Char) : Bool :=
  48 ≤ c.toNat && c.toNat ≤ 57

/-- Value accumulated by the digit loop of C atoi and of one sscanf
conversion: consume leading decimal digits into an accumulator. -/
def digitsVal : List Char → Nat → Nat
  | [], acc => acc
  | c :: cs, acc =>
    if isDigitC c then digitsVal cs (acc * 10 + (c.toNat - 48)) else acc

/-- C atoi: skip leading whitespace, optional sign, then decimal digits;
yields 0 when no digits follow.  All arguments the program meets are far
below int overflow, so the value is modelled exactly on Int. -/
def atoi (s : String) : Int :=
  match s.data.dropWhile isSpaceC with
  | '-' :: rest => -(digitsVal rest 0 : Int)
  | '+' :: rest => (digitsVal rest 0 : Int)
  | cs => (digitsVal cs 0 : Int)

/-- The digit-run part of one sscanf %d conversion: at least one digit is
required, the maximal digit run is consumed. -/
def scanDigits (cs : List Char) : Option (Nat × List Char) :=
  if (cs.takeWhile isDigitC).isEmpty then none
  else some (digitsVal (cs.takeWhile isDigitC) 0, cs.dropWhile isDigitC)

/-- One sscanf %d conversion: skip whitespace, optional sign, then at
least one digit; none is a matching failure. -/
def scanInt (cs : List Char) : Option (Int × List Char) :=
  match cs.dropWhile isSpaceC with
  | [] => none
  | c :: rest =>
    if c = '-' then (scanDigits rest).map (fun p => (-(p.1 : Int), p.2))
    else if c = '+' then (scanDigits rest).map (fun p => ((p.1 : Int), p.2))
    else (scanDigits (c :: rest)).map (fun p => ((p.1 : Int), p.2))

/-- The call sscanf(arg, "%d.%d", &chan, &subchan) as main uses it
(aquosctl.c:576, 592): the result is (conversion count, chan, subchan),
where a field that is not converted keeps the value 0 that main
initialised both variables to.  The literal dot in the format must match
the next input byte exactly. -/
def sscanfDD (s : String) : Nat × Int × Int :=
  match scanInt s.data with
  | none => (0, 0, 0)
  | some (a, rest) =>
    match rest with
    | '.' :: rest2 =>
      match scanInt rest2 with
      | none => (1, a, 0)
      | some (b, _) => (2, a, b)
    | _ => (1, a, 0)

/-- Decimal digit characters of a natural number, most significant first.
Fuel-based structural recursion so that it reduces definitionally. -/
def natDigitsGo : Nat → Nat → List Char
  | 0, _ => []
  | fuel + 1, n =>
    if n < 10 then [Char.ofNat (48 + n)]
    else natDigitsGo fuel (n / 10) ++ [Char.ofNat (48 + n % 10)]

/-- Decimal digit characters of a natural number. -/
def natDigits (n : Nat) : List Char := natDigitsGo (n + 1) n

/-- C sprintf %0wd: decimal, zero-padded on the left to a minimum total
width w; a minus sign counts toward the width and precedes the pad zeros.
Wider values are not truncated. -/
def fmtZeroS (w : Nat) (n : Int) : String :=
  if n < 0 then
    String.mk ('-' :: (List.replicate ((w - 1) - (natDigits n.natAbs).length) '0'
      ++ natDigits n.natAbs))
  else
    String.mk (List.replicate (w - (natDigits n.natAbs).length) '0'
      ++ natDigits n.natAbs)

/-- C sprintf %-4s: left-justified, blank-padded to a minimum width of 4.
Longer strings are not truncated. -/
def fmtLeft4 (s : String) : String :=
  s ++ String.mk (List.replicate (4 - s.length) ' ')

/-- Classified device reply.  UnexpectedPayload carries the reply with its
final byte chopped, exactly the text sendcommand prints. -/
inductive Response where
  | Success : Response
  | ProtocolError : Response
  | UnexpectedPayload : List Char → Response
deriving DecidableEq

/-- Reply classification at the tail of C sendcommand (aquosctl.c:716-743):
the read loop stops once the final byte of the buffer is CR or LF, that
final byte is overwritten with NUL, and the rest is compared with
strncmp against the prefixes OK and ERR. -/
def classify (raw : List Char) : Response :=
  let content := raw.dropLast
  if ("OK".data).isPrefixOf content then Response.Success
  else if ("ERR".data).isPrefixOf content then Response.ProtocolError
  else Response.UnexpectedPayload content

/-- Return path of one sendcommand call: EXIT_SUCCESS, EXIT_FAILURE, or
the SIGALRM path, in which the handler leave calls exit(EXIT_FAILURE)
and control never returns to main. -/
inductive Outcome where
  | success : Outcome
  | failure : Outcome
  | timeoutExit : Outcome
deriving DecidableEq

/-- Outcome of a real (transmitting) sendcommand call, as a function of
the environment reply: a missing reply means the one-second alarm fired. -/
def respOutcome (reply : Option String) : Outcome :=
  match reply with
  | none => Outcome.timeoutExit
  | some r =>
    match classify r.data with
    | Response.Success => Outcome.success
    | _ => Outcome.failure

/-- C sendcommand(command, parameter) (aquosctl.c:688-743).  The three
writes (opcode bytes, parameter bytes, CR byte) form one frame and are
modelled as their concatenation; the inspection line printed when verbose
or nosend is set is modelled as the (command, parameter) pair. -/
def sendcommand (verbose nosend : Bool) (command parameter : String)
    (reply : Option String) : List String × List (String × String) × Outcome :=
  let printed := if verbose || nosend then [(command, parameter)] else []
  if nosend then ([], printed, Outcome.success)
  else ([command ++ parameter ++ "\r"], printed, respOutcome reply)

/-- Process exit status. -/
inductive ExitStatus where
  | success : ExitStatus
  | failure : ExitStatus
deriving DecidableEq

/-- Observable behaviour of one invocation. -/
structure RunResult where
  writes : List String
  printed : List (String × String)
  exit : ExitStatus
deriving DecidableEq

/-- Straight-line sequence of sendcommand calls inside one main case.
main discards the EXIT_SUCCESS/EXIT_FAILURE return value of every
sendcommand call and falls through to return EXIT_SUCCESS; only the
SIGALRM timeout path (exit inside leave) cuts the sequence short.  A
transmitting call consumes one environment reply; a dry-run call reads
nothing and consumes none. -/
def sendAll (verbose nosend : Bool) :
    List (String × String) → List (Option String) → RunResult
  | [], _ => { writes := [], printed := [], exit := ExitStatus.success }
  | (c, p) :: rest, replies =>
    let step := sendcommand verbose nosend c p (replies.headD none)
    match step.2.2 with
    | Outcome.timeoutExit =>
      { writes := step.1, printed := step.2.1, exit := ExitStatus.failure }
    | _ =>
      let r := sendAll verbose nosend rest (if nosend then replies else replies.tail)
      { writes := step.1 ++ r.writes, printed := step.2.1 ++ r.printed, exit := r.exit }

def CMD_NONE : Nat := 0
def CMD_POENABLE : Nat := 1
def CMD_POWER : Nat := 2
def CMD_INPUT : Nat := 3
def CMD_AVMODE : Nat := 6
def CMD_VOLUME : Nat := 7
def CMD_HPOS : Nat := 8
def CMD_VPOS : Nat := 9
def CMD_CLOCK : Nat := 10
def CMD_PHASE : Nat := 11
def CMD_VIEWMODE : Nat := 12
def CMD_MUTE : Nat := 13
def CMD_SURROUND : Nat := 14
def CMD_AUDIOSEL : Nat := 15
def CMD_SLEEP : Nat := 16
def CMD_ACHAN : Nat := 17
def CMD_DCHAN : Nat := 18
def CMD_DCABL1 : Nat := 19
def CMD_DCABL2 : Nat := 20
def CMD_CHUP : Nat := 21
def CMD_CHDN : Nat := 22
def CMD_CC : Nat := 23

/-- The command table cmdtab (aquosctl.c:50-139), restricted to the cmd
and opcode fields; the args and desc strings are only read by usage. -/
def cmdtab : List (String × Nat) :=
  [("poenable", CMD_POENABLE), ("power", CMD_POWER), ("input", CMD_INPUT),
   ("avmode", CMD_AVMODE), ("vol", CMD_VOLUME), ("hpos", CMD_HPOS),
   ("vpos", CMD_VPOS), ("clock", CMD_CLOCK), ("phase", CMD_PHASE),
   ("viewmode", CMD_VIEWMODE), ("mute", CMD_MUTE), ("surround", CMD_SURROUND),
   ("audiosel", CMD_AUDIOSEL), ("sleep", CMD_SLEEP), ("achan", CMD_ACHAN),
   ("dchan", CMD_DCHAN), ("dcabl1", CMD_DCABL1), ("dcabl2", CMD_DCABL2),
   ("chup", CMD_CHUP), ("chdn", CMD_CHDN), ("cc", CMD_CC)]

/-- C checkcmd (aquosctl.c:745-757): opcode of the first table entry whose
name matches, else CMD_NONE. -/
def checkcmd (s : String) : Nat :=
  match cmdtab.find? (fun e => e.1 == s) with
  | some e => e.2
  | none => CMD_NONE

/-- Validation and frame construction of the CMD_POENABLE case
(aquosctl.c:220-237). -/
def encPoenable (arg : String) : Option (List (String × String)) :=
  if arg = "off" then some [("RSPW", fmtLeft4 "0")]
  else if arg = "on" then some [("RSPW", fmtLeft4 "1")]
  else none

/-- Validation and frame construction of the CMD_POWER case
(aquosctl.c:239-256). -/
def encPower (arg : String) : Option (List (String × String)) :=
  if arg = "off" then some [("POWR", fmtLeft4 "0")]
  else if arg = "on" then some [("POWR", fmtLeft4 "1")]
  else none

/-- Validation and frame construction of the CMD_INPUT case
(aquosctl.c:258-305), including the INP-prefixed video-select variants. -/
def encInput (arg arg2 : String) : Option (List (String × String)) :=
  if arg = "" then some [("ITGD", fmtLeft4 "0")]
  else if arg = "tv" then some [("ITVD", fmtLeft4 "0")]
  else if 1 ≤ atoi arg ∧ atoi arg ≤ 7 ∧ arg2 = "" then
    some [("IAVD", fmtLeft4 arg)]
  else if 1 ≤ atoi arg ∧ atoi arg ≤ 7 ∧ arg2 = "auto" then
    some [("INP" ++ arg, fmtLeft4 "0")]
  else if 1 ≤ atoi arg ∧ atoi arg ≤ 7 ∧ arg2 = "video" then
    some [("INP" ++ arg, fmtLeft4 "1")]
  else if 1 ≤ atoi arg ∧ atoi arg ≤ 7 ∧ arg2 = "component" then
    some [("INP" ++ arg, fmtLeft4 "2")]
  else none

/-- Validation and frame construction of the CMD_AVMODE case
(aquosctl.c:307-345). -/
def encAvmode (arg : String) : Option (List (String × String)) :=
  if arg = "" then some [("AVMD", fmtLeft4 "0")]
  else if arg = "standard" then some [("AVMD", fmtLeft4 "1")]
  else if arg = "movie" then some [("AVMD", fmtLeft4 "2")]
  else if arg = "game" then some [("AVMD", fmtLeft4 "3")]
  else if arg = "user" then some [("AVMD", fmtLeft4 "4")]
  else if arg = "dyn-fixed" then some [("AVMD", fmtLeft4 "5")]
  else if arg = "dyn" then some [("AVMD", fmtLeft4 "6")]
  else if arg = "pc" then some [("AVMD", fmtLeft4 "7")]
  else if arg = "xvycc" then some [("AVMD", fmtLeft4 "8")]
  else none

/-- Validation and frame construction of the CMD_VOLUME case
(aquosctl.c:347-362). -/
def encVolume (arg : String) : Option (List (String × String)) :=
  if arg ≠ "" ∧ 0 ≤ atoi arg ∧ atoi arg ≤ 60 then
    some [("VOLM", fmtLeft4 arg)]
  else none

/-- Validation and frame construction of the CMD_HPOS case
(aquosctl.c:364-381). -/
def encHpos (arg : String) : Option (List (String × String)) :=
  if arg ≠ "" ∧ 0 ≤ atoi arg ∧ atoi arg ≤ 999 then
    some [("HPOS", fmtLeft4 arg)]
  else none

/-- Validation and frame construction of the CMD_VPOS case
(aquosctl.c:383-400). -/
def encVpos (arg : String) : Option (List (String × String)) :=
  if arg ≠ "" ∧ 0 ≤ atoi arg ∧ atoi arg ≤ 999 then
    some [("VPOS", fmtLeft4 arg)]
  else none

/-- Validation and frame construction of the CMD_CLOCK case
(aquosctl.c:402-417). -/
def encClock (arg : String) : Option (List (String × String)) :=
  if arg ≠ "" ∧ 0 ≤ atoi arg ∧ atoi arg ≤ 180 then
    some [("CLCK", fmtLeft4 arg)]
  else none

/-- Validation and frame construction of the CMD_PHASE case
(aquosctl.c:419-434).  Note the code checks 0 as lower bound although the
table documents the range as 1 to 40. -/
def encPhase (arg : String) : Option (List (String × String)) :=
  if arg ≠ "" ∧ 0 ≤ atoi arg ∧ atoi arg ≤ 40 then
    some [("PHSE", fmtLeft4 arg)]
  else none

/-- Validation and frame construction of the CMD_VIEWMODE case
(aquosctl.c:436-477). -/
def encViewmode (arg : String) : Option (List (String × String)) :=
  if arg = "" then some [("WIDE", fmtLeft4 "0")]
  else if arg = "sidebar" then some [("WIDE", fmtLeft4 "1")]
  else if arg = "sstretch" then some [("WIDE", fmtLeft4 "2")]
  else if arg = "zoom" then some [("WIDE", fmtLeft4 "3")]
  else if arg = "stretch" then some [("WIDE", fmtLeft4 "4")]
  else if arg = "normal" then some [("WIDE", fmtLeft4 "5")]
  else if arg = "zoom-pc" then some [("WIDE", fmtLeft4 "6")]
  else if arg = "stretch-pc" then some [("WIDE", fmtLeft4 "7")]
  else if arg = "dotbydot" then some [("WIDE", fmtLeft4 "8")]
  else if arg = "full" then some [("WIDE", fmtLeft4 "9")]
  else none

/-- Validation and frame construction of the CMD_MUTE case
(aquosctl.c:479-499). -/
def encMute (arg : String) : Option (List (String × String)) :=
  if arg = "" then some [("MUTE", fmtLeft4 "0")]
  else if arg = "on" then some [("MUTE", fmtLeft4 "1")]
  else if arg = "off" then some [("MUTE", fmtLeft4 "2")]
  else none

/-- Validation and frame construction of the CMD_SURROUND case
(aquosctl.c:501-521). -/
def encSurround (arg : String) : Option (List (String × String)) :=
  if arg = "" then some [("ACSU", fmtLeft4 "0")]
  else if arg = "on" then some [("ACSU", fmtLeft4 "1")]
  else if arg = "off" then some [("ACSU", fmtLeft4 "2")]
  else none

/-- Validation and frame construction of the CMD_SLEEP case
(aquosctl.c:528-557). -/
def encSleep (arg : String) : Option (List (String × String)) :=
  if arg = "off" then some [("OFTM", fmtLeft4 "0")]
  else if arg = "0" then some [("OFTM", fmtLeft4 "0")]
  else if arg = "30" then some [("OFTM", fmtLeft4 "1")]
  else if arg = "60" then some [("OFTM", fmtLeft4 "2")]
  else if arg = "90" then some [("OFTM", fmtLeft4 "3")]
  else if arg = "120" then some [("OFTM", fmtLeft4 "4")]
  else none

/-- Validation and frame construction of the CMD_ACHAN case
(aquosctl.c:559-572). -/
def encAchan (arg : String) : Option (List (String × String)) :=
  if 1 ≤ atoi arg ∧ atoi arg ≤ 135 then
    some [("DCCH", fmtLeft4 arg)]
  else none

/-- Validation and frame construction of the CMD_DCHAN case
(aquosctl.c:574-588): accepted whenever sscanf converts at least the
first integer; the two fields are rendered with %02d%02d. -/
def encDchan (arg : String) : Option (List (String × String)) :=
  let t := sscanfDD arg
  if 0 < t.1 then
    some [("DA2P", fmtZeroS 2 t.2.1 ++ fmtZeroS 2 t.2.2)]
  else none

/-- Validation and frame construction of the CMD_DCABL1 case
(aquosctl.c:590-607): two frames, each field rendered with %03d followed
by a blank. -/
def encDcabl1 (arg : String) : Option (List (String × String)) :=
  let t := sscanfDD arg
  if 0 < t.1 ∧ t.2.1 ≤ 999 ∧ t.2.2 ≤ 999 then
    some [("DC2U", fmtZeroS 3 t.2.1 ++ " "), ("DC2L", fmtZeroS 3 t.2.2 ++ " ")]
  else none

/-- Validation and frame construction of the CMD_DCABL2 case
(aquosctl.c:609-627): low range through opcode DC10, high range through
DC11 with 10000 subtracted, both rendered with %04d. -/
def encDcabl2 (arg : String) : Option (List (String × String)) :=
  if 0 ≤ atoi arg ∧ atoi arg ≤ 9999 then
    some [("DC10", fmtZeroS 4 (atoi arg))]
  else if 9999 < atoi arg ∧ atoi arg ≤ 16383 then
    some [("DC11", fmtZeroS 4 (atoi arg - 10000))]
  else none

/-- The switch over checkcmd in main (aquosctl.c:214-643), reduced to its
validation/encoding content: none models the paths that print a
diagnostic and return EXIT_FAILURE before any frame is sent; some gives
the ordered list of (opcode, parameter) frames the case transmits. -/
def dispatch (oparg arg arg2 : String) : Option (List (String × String)) :=
  let c := checkcmd oparg
  if c = CMD_POENABLE then encPoenable arg
  else if c = CMD_POWER then encPower arg
  else if c = CMD_INPUT then encInput arg arg2
  else if c = CMD_AVMODE then encAvmode arg
  else if c = CMD_VOLUME then encVolume arg
  else if c = CMD_HPOS then encHpos arg
  else if c = CMD_VPOS then encVpos arg
  else if c = CMD_CLOCK then encClock arg
  else if c = CMD_PHASE then encPhase arg
  else if c = CMD_VIEWMODE then encViewmode arg
  else if c = CMD_MUTE then encMute arg
  else if c = CMD_SURROUND then encSurround arg
  else if c = CMD_AUDIOSEL then some [("ACHA", fmtLeft4 "0")]
  else if c = CMD_SLEEP then encSleep arg
  else if c = CMD_ACHAN then encAchan arg
  else if c = CMD_DCHAN then encDchan arg
  else if c = CMD_DCABL1 then encDcabl1 arg
  else if c = CMD_DCABL2 then encDcabl2 arg
  else if c = CMD_CHUP then some [("CHUP", fmtLeft4 "0")]
  else if c = CMD_CHDN then some [("CHDW", fmtLeft4 "0")]
  else if c = CMD_CC then some [("CLCP", fmtLeft4 "0")]
  else none

/-- Well-formedness of one transmitted frame: the parameter field spans at
least the 4 protocol bytes and the whole frame (opcode, parameter, CR) at
least 9 bytes. -/
def frameOk (f : String × String) : Prop :=
  4 ≤ f.2.length ∧ 9 ≤ (f.1 ++ f.2 ++ "\r").length

instance (f : String × String) : Decidable (frameOk f) :=
  inferInstanceAs (Decidable (4 ≤ f.2.length ∧ 9 ≤ (f.1 ++ f.2 ++ "\r").length))

/-- Every frame list an encoder result can carry satisfies frameOk. -/
def encOk (o : Option (List (String × String))) : Prop :=
  ∀ fs, o = some fs → ∀ f ∈ fs, frameOk f

/-- One invocation of main (aquosctl.c:152-648) after option parsing: an
unknown command or a failed validation prints a diagnostic and exits with
EXIT_FAILURE before any frame is sent; otherwise the frames of the case
are sent in sequence and main returns EXIT_SUCCESS, the per-frame
sendcommand results being discarded. -/
def runMain (verbose nosend : Bool) (oparg arg arg2 : String)
    (replies : List (Option String)) : RunResult :=
  match dispatch oparg arg arg2 with
  | none => { writes := [], printed := [], exit := ExitStatus.failure }
  | some frames => sendAll verbose nosend frames replies

/-! Helper lemmas about the embedding. -/

theorem length_fmtLeft4 (s : String) : 4 ≤ (fmtLeft4 s).length := by
  unfold fmtLeft4
  rw [String.length_append]
  have h : (String.mk (List.replicate (4 - s.length) ' ')).length = 4 - s.length := by
    show (List.replicate (4 - s.length) ' ').length = 4 - s.length
    exact List.length_replicate _ _
  omega

theorem length_fmtZeroS (w : Nat) (n : Int) : w ≤ (fmtZeroS w n).length := by
  unfold fmtZeroS
  split
  · show w ≤ ('-' :: (List.replicate ((w - 1) - (natDigits n.natAbs).length) '0'
      ++ natDigits n.natAbs)).length
    simp only [List.length_cons, List.length_append, List.length_replicate]
    omega
  · show w ≤ (List.replicate (w - (natDigits n.natAbs).length) '0'
      ++ natDigits n.natAbs).length
    simp only [List.length_append, List.length_replicate]
    omega

theorem frameOk_mk (op p : String) (hop : 4 ≤ op.length) (hp : 4 ≤ p.length) :
    frameOk (op, p) := by
  refine ⟨hp, ?_⟩
  show 9 ≤ (op ++ p ++ "\r").length
  rw [String.length_append, String.length_append]
  have h : ("\r" : String).length = 1 := rfl
  omega

theorem length_pos_of_ne_empty (s : String) (h : s ≠ "") : 0 < s.length := by
  cases s with
  | mk l =>
    cases l with
    | nil => exact absurd rfl h
    | cons c cs => exact Nat.succ_pos cs.length

theorem sendAll_cons_some (v : Bool) (c p : String) (rest : List (String × String))
    (s : String) (rs : List (Option String)) :
    sendAll v false ((c, p) :: rest) (some s :: rs) =
      { writes := (c ++ p ++ "\r") :: (sendAll v false rest rs).writes,
        printed := (if v then [(c, p)] else []) ++ (sendAll v false rest rs).printed,
        exit := (sendAll v false rest rs).exit } := by
  cases hc : classify s.data <;>
    simp [sendAll, sendcommand, respOutcome, hc]

theorem sendAll_cons_noreply (v : Bool) (c p : String) (rest : List (String × String))
    (replies : List (Option String)) (h : replies.headD none = none) :
    sendAll v false ((c, p) :: rest) replies =
      { writes := [c ++ p ++ "\r"], printed := if v then [(c, p)] else [],
        exit := ExitStatus.failure } := by
  have h2 : replies.head?.getD none = none := by
    cases replies with
    | nil => rfl
    | cons r rs => simpa using h
  simp [sendAll, sendcommand, respOutcome, h2]

theorem sendAll_nosend (v : Bool) (frames : List (String × String))
    (replies : List (Option String)) :
    sendAll v true frames replies =
      { writes := [], printed := frames, exit := ExitStatus.success } := by
  induction frames generalizing replies with
  | nil => rfl
  | cons f rest ih =>
    obtain ⟨c, p⟩ := f
    simp [sendAll, sendcommand, ih]

theorem sendAll_exit_success (v : Bool) (frames : List (String × String)) :
    ∀ replies : List (Option String), frames.length ≤ replies.length →
      (∀ r ∈ replies, r ≠ none) →
      (sendAll v false frames replies).exit = ExitStatus.success := by
  induction frames with
  | nil => intro replies _ _; rfl
  | cons f rest ih =>
    intro replies hlen hall
    obtain ⟨c, p⟩ := f
    cases replies with
    | nil => simp at hlen
    | cons r rs =>
      cases r with
      | none => exact absurd rfl (hall none (List.mem_cons_self _ _))
      | some s =>
        rw [sendAll_cons_some]
        exact ih rs (by simpa using hlen) (fun x hx => hall x (List.mem_cons_of_mem _ hx))

theorem sendAll_single_writes (v : Bool) (c p : String)
    (replies : List (Option String)) :
    (sendAll v false [(c, p)] replies).writes = [c ++ p ++ "\r"] := by
  cases replies with
  | nil => rfl
  | cons r rs =>
    cases r with
    | none => rw [sendAll_cons_noreply v c p [] (none :: rs) rfl]
    | some s =>
      rw [sendAll_cons_some]
      rfl

theorem dispatch_dcabl2 (arg arg2 : String) :
    dispatch "dcabl2" arg arg2 = encDcabl2 arg := rfl

theorem dispatch_dchan (arg arg2 : String) :
    dispatch "dchan" arg arg2 = encDchan arg := rfl

theorem dispatch_dcabl1 (arg arg2 : String) :
    dispatch "dcabl1" arg arg2 = encDcabl1 arg := rfl

/-! Claim theorems. -/

/-- C1 counterexample: a volume command whose only reply classifies as
ProtocolError still terminates with success exit status, refuting the
claim that a ProtocolError or UnexpectedPayload reply forces a nonzero
exit status and that success status implies all replies were Success. -/
theorem C1_counterexample :
    classify ("ERR\r").data = Response.ProtocolError ∧
    runMain false false "vol" "30" "" [some "ERR\r"] =
      { writes := ["VOLM30  \r"], printed := [], exit := ExitStatus.success } := by
  decide

/-- C1 (amended): main discards the result of every sendcommand call, so
whenever the command validates and every consulted reply arrives before
the alarm fires, the process exits with success status no matter how the
replies classify; a response error is reported on stderr but never turns
the exit status nonzero. -/
theorem C1_exit_ignores_response (verbose : Bool) (oparg arg arg2 : String)
    (frames : List (String × String)) (replies : List (Option String))
    (hd : dispatch oparg arg arg2 = some frames)
    (hlen : frames.length ≤ replies.length)
    (hall : ∀ r ∈ replies, r ≠ none) :
    (runMain verbose false oparg arg arg2 replies).exit = ExitStatus.success := by
  unfold runMain
  rw [hd]
  exact sendAll_exit_success verbose frames replies hlen hall

/-- C1 witness: the amended theorem at the ProtocolError reply run. -/
theorem C1_witness :
    (runMain false false "vol" "30" "" [some "ERR\r"]).exit = ExitStatus.success :=
  C1_exit_ignores_response false "vol" "30" "" [("VOLM", "30  ")] [some "ERR\r"]
    (by decide) (by decide) (by decide)

/-- C2 counterexample: with the first dcabl1 reply classifying as
ProtocolError, the second sub-frame DC2L is transmitted anyway, refuting
the claim that it is never transmitted after a non-Success first reply. -/
theorem C2_counterexample :
    classify ("ERR\r").data = Response.ProtocolError ∧
    (runMain false false "dcabl1" "5.12" "" [some "ERR\r", some "OK\r"]).writes =
      ["DC2U005 \r", "DC2L012 \r"] := by
  decide

/-- C2 (amended): main ignores the result of the first DC2U send, so the
DC2L sub-frame is transmitted whenever the first reply arrives at all,
whatever it classifies as; only a first-reply timeout, which terminates
the process from inside the alarm handler, suppresses the second
transmission (and then the exit status is failure). -/
theorem C2_second_frame_sent (r : String) (rest : List (Option String)) :
    (runMain false false "dcabl1" "5.12" "" (some r :: rest)).writes =
      ["DC2U005 \r", "DC2L012 \r"] ∧
    (runMain false false "dcabl1" "5.12" "" (none :: rest)).writes = ["DC2U005 \r"] ∧
    (runMain false false "dcabl1" "5.12" "" (none :: rest)).exit = ExitStatus.failure := by
  refine ⟨?_, ?_, ?_⟩
  · show (sendAll false false [("DC2U", "005 "), ("DC2L", "012 ")]
      (some r :: rest)).writes = _
    rw [sendAll_cons_some, sendAll_single_writes]
    rfl
  · show (sendAll false false [("DC2U", "005 "), ("DC2L", "012 ")]
      (none :: rest)).writes = _
    rw [sendAll_cons_noreply false "DC2U" "005 " [("DC2L", "012 ")] (none :: rest) rfl]
    rfl
  · show (sendAll false false [("DC2U", "005 "), ("DC2L", "012 ")]
      (none :: rest)).exit = _
    rw [sendAll_cons_noreply false "DC2U" "005 " [("DC2L", "012 ")] (none :: rest) rfl]

/-- C2 witness: the amended theorem at a concrete ProtocolError first
reply. -/
theorem C2_witness :
    (runMain false false "dcabl1" "5.12" "" [some "ERR\r", some "OK\r"]).writes =
      ["DC2U005 \r", "DC2L012 \r"] :=
  (C2_second_frame_sent "ERR\r" [some "OK\r"]).1

/-- C5 counterexample: phase is documented with range 1 to 40, yet the
argument 0 (the lo minus 1 value the claim says must fail validation)
passes validation and a frame is built for it. -/
theorem C5_counterexample :
    dispatch "phase" "0" "" = some [("PHSE", "0   ")] := by decide

set_option maxRecDepth 8000 in
/-- C5 (amended): for the bounded-range commands, lo and hi validate and
hi plus 1 fails; lo minus 1 fails except for phase, whose code checks
0 to 40 although its table entry documents 1 to 40; and non-numeric text,
which atoi turns into 0, is rejected only where 0 lies outside the coded
range (achan), while vol, clock, phase, hpos, vpos and dcabl2 accept it. -/
theorem C5_bounded_ranges :
    (dispatch "vol" "0" "").isSome = true ∧ (dispatch "vol" "60" "").isSome = true ∧
    dispatch "vol" "-1" "" = none ∧ dispatch "vol" "61" "" = none ∧
    (dispatch "vol" "abc" "").isSome = true ∧
    (dispatch "clock" "0" "").isSome = true ∧ (dispatch "clock" "180" "").isSome = true ∧
    dispatch "clock" "-1" "" = none ∧ dispatch "clock" "181" "" = none ∧
    (dispatch "clock" "abc" "").isSome = true ∧
    (dispatch "phase" "1" "").isSome = true ∧ (dispatch "phase" "40" "").isSome = true ∧
    (dispatch "phase" "0" "").isSome = true ∧
    dispatch "phase" "-1" "" = none ∧ dispatch "phase" "41" "" = none ∧
    (dispatch "phase" "abc" "").isSome = true ∧
    (dispatch "achan" "1" "").isSome = true ∧ (dispatch "achan" "135" "").isSome = true ∧
    dispatch "achan" "0" "" = none ∧ dispatch "achan" "136" "" = none ∧
    dispatch "achan" "abc" "" = none ∧
    (dispatch "hpos" "0" "").isSome = true ∧ (dispatch "hpos" "999" "").isSome = true ∧
    dispatch "hpos" "-1" "" = none ∧ dispatch "hpos" "1000" "" = none ∧
    (dispatch "hpos" "abc" "").isSome = true ∧
    (dispatch "vpos" "0" "").isSome = true ∧ (dispatch "vpos" "999" "").isSome = true ∧
    dispatch "vpos" "-1" "" = none ∧ dispatch "vpos" "1000" "" = none ∧
    (dispatch "vpos" "abc" "").isSome = true ∧
    (dispatch "dcabl2" "0" "").isSome = true ∧
    (dispatch "dcabl2" "16383" "").isSome = true ∧
    dispatch "dcabl2" "-1" "" = none ∧ dispatch "dcabl2" "16384" "" = none ∧
    (dispatch "dcabl2" "abc" "").isSome = true := by
  refine ⟨?_, ?_, ?_, ?_, ?_, ?_, ?_, ?_, ?_, ?_, ?_, ?_, ?_, ?_, ?_, ?_, ?_, ?_, ?_, ?_, ?_, ?_, ?_, ?_, ?_, ?_, ?_, ?_, ?_, ?_, ?_, ?_, ?_, ?_, ?_, ?_⟩ <;> decide

/-- C7: dotted-pair parsing and encoding: 5.12 gives major 5 and minor 12,
and a lone 5 gives minor 0; dchan packs both fields zero-padded to two
digits into a single DA2P frame, while dcabl1 sends a DC2U major frame
followed by a DC2L minor frame with each field zero-padded to three
digits (plus the blank the code appends). -/
theorem C7_dotted_pair :
    sscanfDD "5.12" = (2, 5, 12) ∧
    sscanfDD "5" = (1, 5, 0) ∧
    dispatch "dchan" "5.12" "" = some [("DA2P", "0512")] ∧
    dispatch "dchan" "5" "" = some [("DA2P", "0500")] ∧
    dispatch "dcabl1" "5.12" "" = some [("DC2U", "005 "), ("DC2L", "012 ")] ∧
    dispatch "dcabl1" "5" "" = some [("DC2U", "005 "), ("DC2L", "000 ")] ∧
    (runMain false false "dcabl1" "5.12" "" [some "OK\r", some "OK\r"]).writes =
      ["DC2U005 \r", "DC2L012 \r"] := by
  decide

/-- C3: the response classifier strips the trailing terminator byte
(carriage return or newline) and classifies by prefix: content beginning
with OK is Success, content beginning with ERR is ProtocolError, and any
other content is UnexpectedPayload carrying exactly the stripped text. -/
theorem C3_classifier (content : List Char) (t : Char) (h : t = '\r' ∨ t = '\n') :
    classify (content ++ [t]) =
      (if ("OK".data).isPrefixOf content then Response.Success
       else if ("ERR".data).isPrefixOf content then Response.ProtocolError
       else Response.UnexpectedPayload content) := by
  simp only [classify, List.dropLast_concat]

/-- C3 witness: the classifier at the concrete reply GARBLED followed by
a carriage return. -/
theorem C3_witness :
    classify ("GARBLED\r").data = Response.UnexpectedPayload ("GARBLED").data := by
  rw [show ("GARBLED\r").data = ("GARBLED").data ++ ['\r'] from rfl]
  rw [C3_classifier ("GARBLED").data '\r' (Or.inl rfl)]
  decide

/-- C4: dcabl2 split-range encoding: 9999 goes through DC10 with
parameter 9999, 10000 through DC11 with parameter 0000, 16383 through
DC11 with 6383, and 16384 is rejected with no frame; in general a parsed
value in 0 to 9999 is sent through DC10 zero-padded to four digits, and
one in 10000 to 16383 through DC11 as the value minus 10000, zero-padded
to four digits. -/
theorem C4_split_range :
    dispatch "dcabl2" "9999" "" = some [("DC10", "9999")] ∧
    dispatch "dcabl2" "10000" "" = some [("DC11", "0000")] ∧
    dispatch "dcabl2" "16383" "" = some [("DC11", "6383")] ∧
    dispatch "dcabl2" "16384" "" = none ∧
    (∀ arg : String, 0 ≤ atoi arg → atoi arg ≤ 9999 →
      dispatch "dcabl2" arg "" = some [("DC10", fmtZeroS 4 (atoi arg))]) ∧
    (∀ arg : String, 9999 < atoi arg → atoi arg ≤ 16383 →
      dispatch "dcabl2" arg "" = some [("DC11", fmtZeroS 4 (atoi arg - 10000))]) := by
  refine ⟨by decide, by decide, by decide, by decide, ?_, ?_⟩
  · intro arg h1 h2
    rw [dispatch_dcabl2]
    unfold encDcabl2
    rw [if_pos ⟨h1, h2⟩]
  · intro arg h1 h2
    rw [dispatch_dcabl2]
    unfold encDcabl2
    rw [if_neg (by omega : ¬(0 ≤ atoi arg ∧ atoi arg ≤ 9999)), if_pos ⟨h1, h2⟩]

/-- C4 witness: the general split-range clauses at concrete values. -/
theorem C4_witness :
    dispatch "dcabl2" "42" "" = some [("DC10", fmtZeroS 4 (atoi "42"))] ∧
    dispatch "dcabl2" "10500" "" = some [("DC11", fmtZeroS 4 (atoi "10500" - 10000))] :=
  ⟨C4_split_range.2.2.2.2.1 "42" (by decide) (by decide),
   C4_split_range.2.2.2.2.2 "10500" (by decide) (by decide)⟩

/-- C8: in dry-run (nosend) mode no transport write ever occurs: a single
sendcommand writes nothing, prints the would-be opcode and parameter, and
returns logical success; a whole invocation writes nothing whatever the
command, and when validation passes it prints every would-be frame and
exits successfully. -/
theorem C8_dry_run (verbose : Bool) (c p : String) (reply : Option String)
    (oparg arg arg2 : String) (replies : List (Option String))
    (frames : List (String × String)) :
    sendcommand verbose true c p reply = ([], [(c, p)], Outcome.success) ∧
    (runMain verbose true oparg arg arg2 replies).writes = [] ∧
    (dispatch oparg arg arg2 = some frames →
      (runMain verbose true oparg arg arg2 replies).printed = frames ∧
      (runMain verbose true oparg arg arg2 replies).exit = ExitStatus.success) := by
  refine ⟨by simp [sendcommand], ?_, ?_⟩
  · unfold runMain
    cases hdisp : dispatch oparg arg arg2 with
    | none => rfl
    | some fs =>
      show (sendAll verbose true fs replies).writes = []
      rw [sendAll_nosend]
  · intro hd
    have hrun : runMain verbose true oparg arg arg2 replies =
        { writes := [], printed := frames, exit := ExitStatus.success } := by
      unfold runMain
      rw [hd]
      exact sendAll_nosend verbose frames replies
    rw [hrun]
    exact ⟨rfl, rfl⟩

/-- C8 witness: a concrete dry-run volume invocation. -/
theorem C8_witness :
    sendcommand false true "VOLM" "30  " none = ([], [("VOLM", "30  ")], Outcome.success) ∧
    (runMain false true "vol" "30" "" []).writes = [] ∧
    (runMain false true "vol" "30" "" []).printed = [("VOLM", "30  ")] ∧
    (runMain false true "vol" "30" "" []).exit = ExitStatus.success := by
  have h := C8_dry_run false "VOLM" "30  " none "vol" "30" "" [] [("VOLM", "30  ")]
  exact ⟨h.1, h.2.1, (h.2.2 (by decide)).1, (h.2.2 (by decide)).2⟩

/-- C9: an unknown command name resolves to CMD_NONE and dispatch rejects
it; any invocation whose dispatch rejects (unknown name or failed
validation) writes nothing to the transport, awaits no reply, and exits
with failure status. -/
theorem C9_no_io_on_reject (verbose nosend : Bool) (oparg arg arg2 : String)
    (replies : List (Option String)) :
    (checkcmd oparg = CMD_NONE → dispatch oparg arg arg2 = none) ∧
    (dispatch oparg arg arg2 = none →
      runMain verbose nosend oparg arg arg2 replies =
        { writes := [], printed := [], exit := ExitStatus.failure }) := by
  constructor
  · intro h
    simp only [dispatch]
    rw [h]
    simp [CMD_NONE, CMD_POENABLE, CMD_POWER, CMD_INPUT, CMD_AVMODE, CMD_VOLUME,
      CMD_HPOS, CMD_VPOS, CMD_CLOCK, CMD_PHASE, CMD_VIEWMODE, CMD_MUTE,
      CMD_SURROUND, CMD_AUDIOSEL, CMD_SLEEP, CMD_ACHAN, CMD_DCHAN, CMD_DCABL1,
      CMD_DCABL2, CMD_CHUP, CMD_CHDN, CMD_CC]
  · intro h
    unfold runMain
    rw [h]

/-- C9 witness: the reject path at a concrete unknown command name. -/
theorem C9_witness :
    runMain false false "bogus" "" "" [] =
      { writes := [], printed := [], exit := ExitStatus.failure } :=
  (C9_no_io_on_reject false false "bogus" "" "" []).2 (by decide)

theorem singleton_frameOk (op p : String) (hop : 4 ≤ op.length) (hp : 4 ≤ p.length) :
    ∀ f ∈ [(op, p)], frameOk f := by
  intro f hf
  rw [List.mem_singleton] at hf
  subst hf
  exact frameOk_mk op p hop hp

theorem encPoenable_frameOk (arg : String) (frames : List (String × String))
    (h : encPoenable arg = some frames) : ∀ f ∈ frames, frameOk f := by
  unfold encPoenable at h
  repeat' split at h
  all_goals first
    | exact Option.noConfusion h
    | (injection h with h2; subst h2; decide)

theorem encPower_frameOk (arg : String) (frames : List (String × String))
    (h : encPower arg = some frames) : ∀ f ∈ frames, frameOk f := by
  unfold encPower at h
  repeat' split at h
  all_goals first
    | exact Option.noConfusion h
    | (injection h with h2; subst h2; decide)

theorem encAvmode_frameOk (arg : String) (frames : List (String × String))
    (h : encAvmode arg = some frames) : ∀ f ∈ frames, frameOk f := by
  unfold encAvmode at h
  repeat' split at h
  all_goals first
    | exact Option.noConfusion h
    | (injection h with h2; subst h2; decide)

theorem encViewmode_frameOk (arg : String) (frames : List (String × String))
    (h : encViewmode arg = some frames) : ∀ f ∈ frames, frameOk f := by
  unfold encViewmode at h
  repeat' split at h
  all_goals first
    | exact Option.noConfusion h
    | (injection h with h2; subst h2; decide)

theorem encMute_frameOk (arg : String) (frames : List (String × String))
    (h : encMute arg = some frames) : ∀ f ∈ frames, frameOk f := by
  unfold encMute at h
  repeat' split at h
  all_goals first
    | exact Option.noConfusion h
    | (injection h with h2; subst h2; decide)

theorem encSurround_frameOk (arg : String) (frames : List (String × String))
    (h : encSurround arg = some frames) : ∀ f ∈ frames, frameOk f := by
  unfold encSurround at h
  repeat' split at h
  all_goals first
    | exact Option.noConfusion h
    | (injection h with h2; subst h2; decide)

theorem encSleep_frameOk (arg : String) (frames : List (String × String))
    (h : encSleep arg = some frames) : ∀ f ∈ frames, frameOk f := by
  unfold encSleep at h
  repeat' split at h
  all_goals first
    | exact Option.noConfusion h
    | (injection h with h2; subst h2; decide)

theorem encVolume_frameOk (arg : String) (frames : List (String × String))
    (h : encVolume arg = some frames) : ∀ f ∈ frames, frameOk f := by
  unfold encVolume at h
  split at h
  · injection h with h2
    subst h2
    exact singleton_frameOk "VOLM" (fmtLeft4 arg) (by decide) (length_fmtLeft4 arg)
  · exact Option.noConfusion h

theorem encHpos_frameOk (arg : String) (frames : List (String × String))
    (h : encHpos arg = some frames) : ∀ f ∈ frames, frameOk f := by
  unfold encHpos at h
  split at h
  · injection h with h2
    subst h2
    exact singleton_frameOk "HPOS" (fmtLeft4 arg) (by decide) (length_fmtLeft4 arg)
  · exact Option.noConfusion h

theorem encVpos_frameOk (arg : String) (frames : List (String × String))
    (h : encVpos arg = some frames) : ∀ f ∈ frames, frameOk f := by
  unfold encVpos at h
  split at h
  · injection h with h2
    subst h2
    exact singleton_frameOk "VPOS" (fmtLeft4 arg) (by decide) (length_fmtLeft4 arg)
  · exact Option.noConfusion h

theorem encClock_frameOk (arg : String) (frames : List (String × String))
    (h : encClock arg = some frames) : ∀ f ∈ frames, frameOk f := by
  unfold encClock at h
  split at h
  · injection h with h2
    subst h2
    exact singleton_frameOk "CLCK" (fmtLeft4 arg) (by decide) (length_fmtLeft4 arg)
  · exact Option.noConfusion h

theorem encPhase_frameOk (arg : String) (frames : List (String × String))
    (h : encPhase arg = some frames) : ∀ f ∈ frames, frameOk f := by
  unfold encPhase at h
  split at h
  · injection h with h2
    subst h2
    exact singleton_frameOk "PHSE" (fmtLeft4 arg) (by decide) (length_fmtLeft4 arg)
  · exact Option.noConfusion h

theorem encAchan_frameOk (arg : String) (frames : List (String × String))
    (h : encAchan arg = some frames) : ∀ f ∈ frames, frameOk f := by
  unfold encAchan at h
  split at h
  · injection h with h2
    subst h2
    exact singleton_frameOk "DCCH" (fmtLeft4 arg) (by decide) (length_fmtLeft4 arg)
  · exact Option.noConfusion h

theorem encInput_frameOk (arg arg2 : String) (frames : List (String × String))
    (h : encInput arg arg2 = some frames) : ∀ f ∈ frames, frameOk f := by
  unfold encInput at h
  split at h
  · injection h with h2; subst h2; decide
  · rename_i hne
    have hlen : 4 ≤ ("INP" ++ arg).length := by
      rw [String.length_append]
      have h1 := length_pos_of_ne_empty arg hne
      have h3 : ("INP" : String).length = 3 := rfl
      omega
    split at h
    · injection h with h2; subst h2; decide
    · split at h
      · injection h with h2; subst h2
        exact singleton_frameOk "IAVD" (fmtLeft4 arg) (by decide) (length_fmtLeft4 arg)
      · split at h
        · injection h with h2; subst h2
          exact singleton_frameOk ("INP" ++ arg) (fmtLeft4 "0") hlen (by decide)
        · split at h
          · injection h with h2; subst h2
            exact singleton_frameOk ("INP" ++ arg) (fmtLeft4 "1") hlen (by decide)
          · split at h
            · injection h with h2; subst h2
              exact singleton_frameOk ("INP" ++ arg) (fmtLeft4 "2") hlen (by decide)
            · exact Option.noConfusion h

theorem encDchan_frameOk (arg : String) (frames : List (String × String))
    (h : encDchan arg = some frames) : ∀ f ∈ frames, frameOk f := by
  simp only [encDchan] at h
  split at h
  · injection h with h2
    subst h2
    intro f hf
    rw [List.mem_singleton] at hf
    subst hf
    refine frameOk_mk _ _ (by decide) ?_
    rw [String.length_append]
    have ha := length_fmtZeroS 2 (sscanfDD arg).2.1
    have hb := length_fmtZeroS 2 (sscanfDD arg).2.2
    omega
  · exact Option.noConfusion h

theorem encDcabl1_frameOk (arg : String) (frames : List (String × String))
    (h : encDcabl1 arg = some frames) : ∀ f ∈ frames, frameOk f := by
  simp only [encDcabl1] at h
  split at h
  · injection h with h2
    subst h2
    intro f hf
    rw [List.mem_cons, List.mem_singleton] at hf
    have hsp : (" " : String).length = 1 := rfl
    rcases hf with hf | hf <;> subst hf
    · refine frameOk_mk _ _ (by decide) ?_
      rw [String.length_append]
      have ha := length_fmtZeroS 3 (sscanfDD arg).2.1
      omega
    · refine frameOk_mk _ _ (by decide) ?_
      rw [String.length_append]
      have ha := length_fmtZeroS 3 (sscanfDD arg).2.2
      omega
  · exact Option.noConfusion h

theorem encDcabl2_frameOk (arg : String) (frames : List (String × String))
    (h : encDcabl2 arg = some frames) : ∀ f ∈ frames, frameOk f := by
  unfold encDcabl2 at h
  split at h
  · injection h with h2
    subst h2
    exact singleton_frameOk "DC10" _ (by decide) (length_fmtZeroS 4 _)
  · split at h
    · injection h with h2
      subst h2
      exact singleton_frameOk "DC11" _ (by decide) (length_fmtZeroS 4 _)
    · exact Option.noConfusion h

/-- C6 counterexample: the argument 00060 is a valid volume (atoi reads
60), yet the %-4s conversion does not truncate, so the parameter field is
5 bytes and the transmitted frame is 10 bytes, not the claimed 9. -/
theorem C6_counterexample :
    dispatch "vol" "00060" "" = some [("VOLM", "00060")] ∧
    (("VOLM" : String) ++ "00060" ++ "\r").length = 10 := by
  decide

theorem encOk_none : encOk none := fun _ h => Option.noConfusion h

theorem encOk_ite (P : Prop) [Decidable P] (a b : Option (List (String × String)))
    (ha : encOk a) (hb : encOk b) : encOk (if P then a else b) := by
  by_cases hP : P
  · rw [if_pos hP]; exact ha
  · rw [if_neg hP]; exact hb

theorem encOk_single (op p : String) (hop : 4 ≤ op.length) (hp : 4 ≤ p.length) :
    encOk (some [(op, p)]) := by
  intro fs h
  injection h with h2
  subst h2
  exact singleton_frameOk op p hop hp

theorem dispatch_frameOk (oparg arg arg2 : String) :
    encOk (dispatch oparg arg arg2) := by
  simp only [dispatch]
  refine encOk_ite _ _ _ (fun fs h => encPoenable_frameOk arg fs h) ?_
  refine encOk_ite _ _ _ (fun fs h => encPower_frameOk arg fs h) ?_
  refine encOk_ite _ _ _ (fun fs h => encInput_frameOk arg arg2 fs h) ?_
  refine encOk_ite _ _ _ (fun fs h => encAvmode_frameOk arg fs h) ?_
  refine encOk_ite _ _ _ (fun fs h => encVolume_frameOk arg fs h) ?_
  refine encOk_ite _ _ _ (fun fs h => encHpos_frameOk arg fs h) ?_
  refine encOk_ite _ _ _ (fun fs h => encVpos_frameOk arg fs h) ?_
  refine encOk_ite _ _ _ (fun fs h => encClock_frameOk arg fs h) ?_
  refine encOk_ite _ _ _ (fun fs h => encPhase_frameOk arg fs h) ?_
  refine encOk_ite _ _ _ (fun fs h => encViewmode_frameOk arg fs h) ?_
  refine encOk_ite _ _ _ (fun fs h => encMute_frameOk arg fs h) ?_
  refine encOk_ite _ _ _ (fun fs h => encSurround_frameOk arg fs h) ?_
  refine encOk_ite _ _ _ (encOk_single "ACHA" (fmtLeft4 "0") (by decide) (by decide)) ?_
  refine encOk_ite _ _ _ (fun fs h => encSleep_frameOk arg fs h) ?_
  refine encOk_ite _ _ _ (fun fs h => encAchan_frameOk arg fs h) ?_
  refine encOk_ite _ _ _ (fun fs h => encDchan_frameOk arg fs h) ?_
  refine encOk_ite _ _ _ (fun fs h => encDcabl1_frameOk arg fs h) ?_
  refine encOk_ite _ _ _ (fun fs h => encDcabl2_frameOk arg fs h) ?_
  refine encOk_ite _ _ _ (encOk_single "CHUP" (fmtLeft4 "0") (by decide) (by decide)) ?_
  refine encOk_ite _ _ _ (encOk_single "CHDW" (fmtLeft4 "0") (by decide) (by decide)) ?_
  refine encOk_ite _ _ _ (encOk_single "CLCP" (fmtLeft4 "0") (by decide) (by decide)) ?_
  exact encOk_none

/-- C6 (amended): padding is only a minimum: for every command and every
argument that passes validation, each emitted frame has a parameter field
of at least 4 bytes and a total length of at least 9 bytes; but because
%-4s and %0wd never truncate, over-wide valid arguments produce frames
longer than 9 bytes. -/
theorem C6_frame_length (oparg arg arg2 : String) (frames : List (String × String))
    (f : String × String) (hd : dispatch oparg arg arg2 = some frames)
    (hf : f ∈ frames) :
    4 ≤ f.2.length ∧ 9 ≤ (f.1 ++ f.2 ++ "\r").length :=
  dispatch_frameOk oparg arg arg2 frames hd f hf

/-- C6 witness: the amended theorem at a canonical-width volume frame. -/
theorem C6_witness :
    4 ≤ ("30  " : String).length ∧ 9 ≤ (("VOLM" : String) ++ "30  " ++ "\r").length :=
  C6_frame_length "vol" "30" "" [("VOLM", "30  ")] ("VOLM", "30  ")
    (by decide) (by decide)

theorem isSpaceC_eq_false_of_isDigitC (c : Char) (h : isDigitC c = true) :
    isSpaceC c = false := by
  unfold isDigitC at h
  unfold isSpaceC
  simp only [Bool.and_eq_true, decide_eq_true_eq] at h
  simp only [Bool.or_eq_false_iff, Bool.and_eq_false_iff, decide_eq_false_iff_not]
  omega

theorem scanInt_cons_digit (c : Char) (cs : List Char) (h : isDigitC c = true) :
    (scanInt (c :: cs)).isSome = true := by
  have hs := isSpaceC_eq_false_of_isDigitC c h
  have hminus : ¬(c = '-') := by
    intro e
    subst e
    exact absurd h (by decide)
  have hplus : ¬(c = '+') := by
    intro e
    subst e
    exact absurd h (by decide)
  simp [scanInt, scanDigits, List.dropWhile_cons, List.takeWhile_cons,
    hs, h, hminus, hplus]

theorem sscanfDD_fst_pos (s : String) (h : (scanInt s.data).isSome = true) :
    0 < (sscanfDD s).1 := by
  unfold sscanfDD
  split
  · rename_i hnone
    rw [hnone] at h
    exact absurd h (by decide)
  · split
    · split
      · simp
      · simp
    · simp

/-- C10: dchan validation enforces no range bounds: every argument whose
first byte is a decimal digit passes validation, and values far outside
the documented 1 to 99 channel domain, including 0, 500.1 and a negative
number, are validated, encoded and transmitted. -/
theorem C10_dchan_unbounded :
    (∀ (arg : String) (c : Char) (cs : List Char),
       arg.data = c :: cs → isDigitC c = true →
       (dispatch "dchan" arg "").isSome = true) ∧
    dispatch "dchan" "0" "" = some [("DA2P", "0000")] ∧
    dispatch "dchan" "500.1" "" = some [("DA2P", "50001")] ∧
    (dispatch "dchan" "-5" "").isSome = true ∧
    (runMain false false "dchan" "500.1" "" [some "OK\r"]).writes =
      ["DA2P50001\r"] := by
  refine ⟨?_, by decide, by decide, by decide, by decide⟩
  intro arg c cs harg hdig
  rw [dispatch_dchan]
  simp only [encDchan]
  have hscan : (scanInt arg.data).isSome = true := by
    rw [harg]
    exact scanInt_cons_digit c cs hdig
  rw [if_pos (sscanfDD_fst_pos arg hscan)]
  rfl

/-- C10 witness: the no-bounds clause at a concrete digit-leading
argument. -/
theorem C10_witness : (dispatch "dchan" "7" "").isSome = true :=
  C10_dchan_unbounded.1 "7" '7' [] rfl (by decide)

end Aquosctl
